import Mathlib

/-!
Verification development for `HA-iDRAC/ha-idrac-controller/app/mqtt_client.py`.

The Python class `MqttClient` is shallowly embedded: its mutable attributes
become the fields of a `MqttClient` structure, each method becomes a pure
function from the structure (plus a transport oracle describing what the
underlying paho client does) to a new structure together with the list of
publish calls handed to the transport and the list of `_log` calls made.

`json.dumps` from the Python standard library is modelled on the value shapes
the source actually serializes: flat objects whose values are `null`, `int`,
strings, arrays of strings, or one further level of object (the device block).
The model reproduces CPython's default output (separators `", "` and `": "`,
insertion order preserved); non-ASCII escaping (`ensure_ascii`) and string
escaping are not modelled, so theorems about exact payload text carry
hypotheses restricting strings to printable ASCII without `"` or `\`.
-/

/-- Opening brace character, written by code point to keep it out of literals. -/
def obrace : Char := Char.ofNat 123

/-- Closing brace character. -/
def cbrace : Char := Char.ofNat 125

/-- Decimal digit characters of `n`, most significant first, computed with
structural fuel so that it reduces in the kernel.  With fuel `> n` this is
exactly the decimal representation CPython prints for a nonnegative int. -/
def natDigitsF : Nat → Nat → List Char
  | 0, _ => []
  | fuel + 1, n =>
      if n < 10 then [Nat.digitChar n]
      else natDigitsF fuel (n / 10) ++ [Nat.digitChar (n % 10)]

/-- Decimal representation of a natural number as characters. -/
def natChars (n : Nat) : List Char := natDigitsF (n + 1) n

/-- Decimal representation of an integer as characters, CPython `repr` style. -/
def intChars (n : Int) : List Char :=
  if n < 0 then '-' :: natChars n.natAbs else natChars n.natAbs

/-- Decimal representation of a natural number as a string (used in log text). -/
def natStr (n : Nat) : String := String.mk (natChars n)

/-- JSON leaf values occurring in the program's payloads. -/
inductive JLeaf where
  | jnull : JLeaf
  | jint : Int → JLeaf
  | jstr : String → JLeaf
  | jstrs : List String → JLeaf
deriving DecidableEq

/-- A JSON value in a payload object: a leaf, or one nested object of leaves
(the device block is the only nested object the source builds). -/
inductive JVal where
  | leaf : JLeaf → JVal
  | jobj : List (String × JLeaf) → JVal
deriving DecidableEq

/-- A JSON string literal: quote, raw characters, quote (no escaping; the
fidelity domain excludes characters that CPython would escape). -/
def quoteChars (s : String) : List Char := '"' :: (s.data ++ ['"'])

/-- Serialization of a JSON array of strings, comma-space separated, matching
CPython's default separators. -/
def strsChars : List String → List Char
  | [] => []
  | [x] => quoteChars x
  | x :: y :: rest => quoteChars x ++ (',' :: ' ' :: strsChars (y :: rest))

/-- Serialization of a JSON leaf. -/
def leafChars : JLeaf → List Char
  | .jnull => ['n', 'u', 'l', 'l']
  | .jint n => intChars n
  | .jstr s => quoteChars s
  | .jstrs xs => '[' :: (strsChars xs ++ [']'])

/-- One `"key": value` entry of an object. -/
def entryChars (k : String) (v : List Char) : List Char :=
  quoteChars k ++ (':' :: ' ' :: v)

/-- The comma-space separated entries of an object, insertion order kept. -/
def entriesChars (f : α → List Char) : List (String × α) → List Char
  | [] => []
  | [(k, v)] => entryChars k (f v)
  | (k, v) :: e :: rest =>
      entryChars k (f v) ++ (',' :: ' ' :: entriesChars f (e :: rest))

/-- Serialization of a payload value (leaf or nested object of leaves). -/
def valChars : JVal → List Char
  | .leaf a => leafChars a
  | .jobj kvs => obrace :: (entriesChars leafChars kvs ++ [cbrace])

/-- Model of `json.dumps` on the discovery payload objects the source builds. -/
def dumps (kvs : List (String × JVal)) : String :=
  String.mk (obrace :: (entriesChars valChars kvs ++ [cbrace]))

/-- Model of `json.dumps` on the flat state dictionaries passed to
`publish_sensor_state`. -/
def dumpsFlat (kvs : List (String × JLeaf)) : String :=
  String.mk (obrace :: (entriesChars leafChars kvs ++ [cbrace]))

/-- Characters of a string up to the first unescaped quote, plus the rest. -/
def takeUntilQuote : List Char → Option (List Char × List Char)
  | [] => none
  | c :: cs =>
      if c = '"' then some ([], cs)
      else (takeUntilQuote cs).map (fun p => (c :: p.1, p.2))

/-- Parse a JSON string literal. -/
def parseStr : List Char → Option (String × List Char)
  | [] => none
  | c :: cs =>
      if c = '"' then (takeUntilQuote cs).map (fun p => (String.mk p.1, p.2))
      else none

/-- Longest digit span at the head of the input. -/
def takeDigits : List Char → List Char × List Char
  | [] => ([], [])
  | c :: cs =>
      if c.isDigit then
        let p := takeDigits cs
        (c :: p.1, p.2)
      else ([], c :: cs)

/-- Numeric value of a digit character list, most significant first. -/
def digitsToNat (ds : List Char) : Nat :=
  ds.foldl (fun a c => 10 * a + (c.toNat - 48)) 0

/-- Parse a nonempty digit span as a natural number. -/
def parseNat (cs : List Char) : Option (Nat × List Char) :=
  match takeDigits cs with
  | ([], _) => none
  | (ds, rest) => some (digitsToNat ds, rest)

/-- Parse a comma-space separated list of JSON strings, closed by a bracket. -/
def parseStrs : Nat → List Char → Option (List String × List Char)
  | 0, _ => none
  | fuel + 1, cs =>
      match parseStr cs with
      | none => none
      | some (s, r1) =>
          match r1 with
          | ']' :: r2 => some ([s], r2)
          | ',' :: ' ' :: r2 =>
              match parseStrs fuel r2 with
              | some (l, r3) => some (s :: l, r3)
              | none => none
          | _ => none

/-- Parse a JSON leaf value (null, integer, string, or array of strings). -/
def parseLeaf (cs : List Char) : Option (JLeaf × List Char) :=
  match cs with
  | [] => none
  | c :: rest =>
      if c = 'n' then
        match rest with
        | 'u' :: 'l' :: 'l' :: r => some (.jnull, r)
        | _ => none
      else if c = '-' then
        (parseNat rest).map (fun p => (.jint (-(p.1 : Int)), p.2))
      else if c = '"' then
        (parseStr cs).map (fun p => (.jstr p.1, p.2))
      else if c = '[' then
        match rest with
        | r0 :: rs =>
            if r0 = ']' then some (.jstrs [], rs)
            else (parseStrs rest.length rest).map (fun p => (.jstrs p.1, p.2))
        | [] => none
      else if c.isDigit then
        (parseNat cs).map (fun p => (.jint (p.1 : Int), p.2))
      else none

/-- Parse the comma-space separated entries of a flat object, closed by the
closing brace; fuel bounds the number of entries. -/
def parseEntriesFlat : Nat → List Char → Option (List (String × JLeaf) × List Char)
  | 0, _ => none
  | fuel + 1, cs =>
      match parseStr cs with
      | none => none
      | some (k, r1) =>
          match r1 with
          | ':' :: ' ' :: r2 =>
              match parseLeaf r2 with
              | none => none
              | some (v, r3) =>
                  match r3 with
                  | c :: rest =>
                      if c = cbrace then some ([(k, v)], rest)
                      else if c = ',' then
                        match rest with
                        | ' ' :: r4 =>
                            match parseEntriesFlat fuel r4 with
                            | some (l, r5) => some ((k, v) :: l, r5)
                            | none => none
                        | _ => none
                      else none
                  | [] => none
          | _ => none

/-- Deserializer for the flat state payloads: inverse of `dumpsFlat` on its
fidelity domain. -/
def loads (s : String) : Option (List (String × JLeaf)) :=
  match s.data with
  | [] => none
  | c :: rest =>
      if c = obrace then
        if rest = [cbrace] then some []
        else
          match parseEntriesFlat rest.length rest with
          | some (l, r) => if r = [] then some l else none
          | none => none
      else none

/-- A string on which the unescaped serialization model is faithful to
CPython's `json.dumps`: printable ASCII, no quote, no backslash. -/
def strOk (s : String) : Bool :=
  s.data.all (fun c => 32 ≤ c.toNat && c.toNat ≤ 126 && c ≠ '"' && c ≠ '\\')

/-- A leaf whose embedded strings are all within the fidelity domain. -/
def leafOk : JLeaf → Bool
  | .jnull => true
  | .jint _ => true
  | .jstr s => strOk s
  | .jstrs xs => xs.all strOk

/-- A flat dictionary within the fidelity domain. -/
def flatOk (kvs : List (String × JLeaf)) : Bool :=
  kvs.all (fun kv => strOk kv.1 && leafOk kv.2)

/-- The device identity dictionary built by `set_device_info`: the
`identifiers` field of the Python dict is always the one-element list
`[identifier]`, so the single identifier is stored directly. -/
structure DeviceInfo where
  identifier : String
  name : String
  model : String
  manufacturer : String
deriving DecidableEq

/-- The mutable attributes of the Python `MqttClient` object. -/
structure MqttClient where
  broker_address : String
  port : Nat
  username : String
  password : String
  is_connected : Bool
  device_info_dict : Option DeviceInfo
  log_level : String
deriving DecidableEq

/-- The `MqttClient` as built by `__init__` (before `configure_broker`). -/
def MqttClient.init : MqttClient :=
  { broker_address := "core-mosquitto"
    port := 1883
    username := ""
    password := ""
    is_connected := false
    device_info_dict := none
    log_level := "info" }

/-- A publish call handed to the underlying paho client: topic, payload,
retain flag, qos. -/
structure Msg where
  topic : String
  payload : String
  retain : Bool
  qos : Nat
deriving DecidableEq

/-- A `_log` call: level and message. -/
abbrev LogEntry : Type := String × String

/-- Numeric rank of a log level, as in `_log`'s `levels` dict; unknown levels
default to the rank of `"info"`. -/
def levelNum (s : String) : Int :=
  if s = "trace" then -1
  else if s = "debug" then 0
  else if s = "info" then 1
  else if s = "warning" then 2
  else if s = "error" then 3
  else if s = "fatal" then 4
  else 1

/-- Whether `_log` prints a message of level `level` under configured
verbosity `log_level`. -/
def shouldLog (log_level level : String) : Bool :=
  levelNum log_level ≤ levelNum level

/-- Python truthiness of an optional string: `None` and `""` are falsy. -/
def pyTruthy : Option String → Bool
  | none => false
  | some s => !s.isEmpty

/-- Python `a or default` on an optional string. -/
def pyOr (o : Option String) (dflt : String) : String :=
  if pyTruthy o then o.getD "" else dflt

/-- What the paho `client.publish` call did: returned a message-info with
result code `rc` and `is_published()` answer `published`, or raised. -/
inductive TransportResult where
  | info : Nat → Bool → TransportResult
  | err : String → TransportResult
deriving DecidableEq

/-- Next transport result from an oracle list, defaulting to a successful
enqueue when the list is exhausted. -/
def nextTr : List TransportResult → TransportResult × List TransportResult
  | [] => (.info 0 true, [])
  | t :: ts => (t, ts)

/-- Result of the low-level `publish` method. -/
structure PubResult where
  state : MqttClient
  msgs : List Msg
  logs : List LogEntry
  ret : Bool
deriving DecidableEq

/-- Result of a method with no (used) return value. -/
structure OpResult where
  state : MqttClient
  msgs : List Msg
  logs : List LogEntry
deriving DecidableEq

/-- Result of `publish_sensor_state`: its Python return value is `None` on
every path, modelled as an `Option Bool` that would carry a boolean if one
were ever returned. -/
structure StateResult where
  state : MqttClient
  msgs : List Msg
  logs : List LogEntry
  ret : Option Bool
deriving DecidableEq

/-- `set_device_info(manufacturer, model, ip_address)`: derives the sanitized
identifier (dots of the address replaced by underscores, `"default_ip"` when
the address is falsy) and stores the device dict. -/
def MqttClient.set_device_info (self : MqttClient)
    (manufacturer model ip_address : Option String) : MqttClient × List LogEntry :=
  let sanitized_ip : String :=
    if pyTruthy ip_address then
      String.mk ((ip_address.getD "").data.map (fun c => if c = '.' then '_' else c))
    else "default_ip"
  let d : DeviceInfo :=
    { identifier := "idrac_controller_" ++ sanitized_ip ++ "_device"
      name := "iDRAC Controller (" ++ pyOr ip_address "N/A" ++ ")"
      model := pyOr model "HA iDRAC Controller"
      manufacturer := pyOr manufacturer "HA Add-on" }
  ({ self with device_info_dict := some d },
   [("info", "Device info for MQTT discovery set")])

/-- The device block embedded in every discovery payload, in the dict's
insertion order. -/
def deviceBlock (d : DeviceInfo) : List (String × JLeaf) :=
  [("identifiers", .jstrs [d.identifier]),
   ("name", .jstr d.name),
   ("model", .jstr d.model),
   ("manufacturer", .jstr d.manufacturer)]

/-- `publish(topic, payload, retain, qos)`: when connected, hands the message
to the transport, logs a warning on a non-success enqueue code or an error on
a raised exception (caught), and returns `is_published()` (or `False` after an
exception); when not connected, logs a warning and returns `False`. -/
def MqttClient.publish (self : MqttClient) (tr : TransportResult)
    (topic payload : String) (retain : Bool) (qos : Nat) : PubResult :=
  if self.is_connected then
    match tr with
    | .info rc published =>
        { state := self
          msgs := [⟨topic, payload, retain, qos⟩]
          logs :=
            if rc ≠ 0 then
              [("warning", "Failed to enqueue message for topic " ++ topic ++
                ". Error code: " ++ natStr rc)]
            else []
          ret := published }
    | .err e =>
        { state := self
          msgs := [⟨topic, payload, retain, qos⟩]
          logs := [("error", "Failed to publish to " ++ topic ++ ": " ++ e)]
          ret := false }
  else
    { state := self
      msgs := []
      logs := [("warning", "Not connected. Cannot publish to " ++ topic ++ ".")]
      ret := false }

/-- The discovery config topic for a slug and optional suffix:
`homeassistant/sensor/<device-id>/<slug><suffix>/config`. -/
def discoveryConfigTopic (d : DeviceInfo) (slug : String) (suffix : Option String) : String :=
  "homeassistant/sensor/" ++ d.identifier ++ "/" ++ slug ++ suffix.getD "" ++ "/config"

/-- The state topic for a slug and optional suffix:
`ha_idrac_controller/sensor/<device-id>/<slug><suffix>/state`. -/
def discoveryStateTopic (d : DeviceInfo) (slug : String) (suffix : Option String) : String :=
  "ha_idrac_controller/sensor/" ++ d.identifier ++ "/" ++ slug ++ suffix.getD "" ++ "/state"

/-- The unique id for a slug and optional suffix:
`<device-id>_<slug>` plus `_<suffix>` when the suffix is truthy. -/
def discoveryUniqueId (d : DeviceInfo) (slug : String) (suffix : Option String) : String :=
  d.identifier ++ "_" ++ slug ++ (if pyTruthy suffix then "_" ++ suffix.getD "" else "")

/-- An optional payload entry, present exactly when the argument is truthy
(as in `if device_class: payload["device_class"] = device_class`). -/
def optEntry (key : String) (o : Option String) : List (String × JVal) :=
  if pyTruthy o then [(key, .leaf (.jstr (o.getD "")))] else []

/-- The discovery configuration payload object, keys in insertion order. -/
def discoveryPayload (d : DeviceInfo) (slug name : String)
    (device_class unit_of_measurement icon value_template entity_category
     unique_id_suffix state_class : Option String) : List (String × JVal) :=
  [("name", .leaf (.jstr name)),
   ("state_topic", .leaf (.jstr (discoveryStateTopic d slug unique_id_suffix))),
   ("unique_id", .leaf (.jstr (discoveryUniqueId d slug unique_id_suffix))),
   ("device", .jobj (deviceBlock d)),
   ("availability_topic", .leaf (.jstr "ha_idrac_controller/status")),
   ("payload_available", .leaf (.jstr "online")),
   ("payload_not_available", .leaf (.jstr "offline"))]
  ++ optEntry "device_class" device_class
  ++ optEntry "unit_of_measurement" unit_of_measurement
  ++ optEntry "icon" icon
  ++ optEntry "value_template" value_template
  ++ optEntry "entity_category" entity_category
  ++ optEntry "state_class" state_class

/-- `publish_sensor_discovery(...)`: with no device identity, logs a warning
and publishes nothing; otherwise publishes the retained discovery
configuration on the config topic and logs a debug line. -/
def MqttClient.publish_sensor_discovery (self : MqttClient) (tr : TransportResult)
    (sensor_type_slug sensor_name : String)
    (device_class unit_of_measurement icon value_template entity_category
     unique_id_suffix state_class : Option String) : OpResult :=
  match self.device_info_dict with
  | none =>
      { state := self
        msgs := []
        logs := [("warning", "Device info not set. Cannot publish discovery for " ++
                  sensor_name ++ ".")] }
  | some d =>
      let p := self.publish tr (discoveryConfigTopic d sensor_type_slug unique_id_suffix)
        (dumps (discoveryPayload d sensor_type_slug sensor_name device_class
          unit_of_measurement icon value_template entity_category unique_id_suffix
          state_class))
        true 0
      { state := p.state
        msgs := p.msgs
        logs := p.logs ++
          [("debug", "Published discovery for " ++ sensor_name ++ " (unique_id: " ++
            discoveryUniqueId d sensor_type_slug unique_id_suffix ++ ") on topic " ++
            discoveryConfigTopic d sensor_type_slug unique_id_suffix)] }

/-- The value template `{{ value_json.temperature | round(1) }}`. -/
def temperatureTemplate : String :=
  "\x7b\x7b value_json.temperature | round(1) \x7d\x7d"

/-- The value template `{{ value_json.speed if value_json.speed is not none
else 'Auto' }}`. -/
def fanSpeedTemplate : String :=
  "\x7b\x7b value_json.speed if value_json.speed is not none else \x27Auto\x27 \x7d\x7d"

/-- The value template `{{ value_json.power | round(0) }}`. -/
def powerTemplate : String :=
  "\x7b\x7b value_json.power | round(0) \x7d\x7d"

/-- `publish_static_sensor_discoveries()`: skipped with a warning unless
connected with device identity set; otherwise publishes the five fixed
discovery messages (inlet temperature, exhaust temperature, target fan speed,
hottest CPU temperature, power consumption) in source order. -/
def MqttClient.publish_static_sensor_discoveries (self : MqttClient)
    (trs : List TransportResult) : OpResult :=
  if !self.is_connected || self.device_info_dict.isNone then
    { state := self
      msgs := []
      logs := [("warning",
        "MQTT not connected or device_info not set, skipping static discoveries.")] }
  else
    let l0 : LogEntry := ("info", "Publishing static sensor discovery messages...")
    let (t1, trs1) := nextTr trs
    let p1 := self.publish_sensor_discovery t1 "inlet_temp" "Inlet Temperature"
      (some "temperature") (some "°C") none (some temperatureTemplate) none none none
    let (t2, trs2) := nextTr trs1
    let p2 := p1.state.publish_sensor_discovery t2 "exhaust_temp" "Exhaust Temperature"
      (some "temperature") (some "°C") none (some temperatureTemplate) none none none
    let (t3, trs3) := nextTr trs2
    let p3 := p2.state.publish_sensor_discovery t3 "target_fan_speed" "Target Fan Speed"
      none (some "%") (some "mdi:fan-chevron-up") (some fanSpeedTemplate) none none none
    let (t4, trs4) := nextTr trs3
    let p4 := p3.state.publish_sensor_discovery t4 "hottest_cpu_temp" "Hottest CPU Temp"
      (some "temperature") (some "°C") none (some temperatureTemplate) none none none
    let (t5, _) := nextTr trs4
    let p5 := p4.state.publish_sensor_discovery t5 "power_consumption" "Power Consumption"
      (some "power") (some "W") (some "mdi:flash") (some powerTemplate) none none
      (some "measurement")
    { state := p5.state
      msgs := p1.msgs ++ p2.msgs ++ p3.msgs ++ p4.msgs ++ p5.msgs
      logs := [l0] ++ p1.logs ++ p2.logs ++ p3.logs ++ p4.logs ++ p5.logs }

/-- The connectivity discovery config topic built in `on_connect`: note the
source prefixes `idrac_controller_` a second time in front of the identifier,
which itself already starts with `idrac_controller_`. -/
def statusConfigTopic (d : DeviceInfo) : String :=
  "homeassistant/binary_sensor/idrac_controller_" ++ d.identifier ++ "/status/config"

/-- The connectivity discovery payload object built in `on_connect`. -/
def statusConfigPayload (d : DeviceInfo) : List (String × JVal) :=
  [("name", .leaf (.jstr "iDRAC Controller Connectivity")),
   ("state_topic", .leaf (.jstr "ha_idrac_controller/status")),
   ("unique_id", .leaf (.jstr ("idrac_controller_" ++ d.identifier ++ "_connectivity"))),
   ("device_class", .leaf (.jstr "connectivity")),
   ("payload_on", .leaf (.jstr "online")),
   ("payload_off", .leaf (.jstr "offline")),
   ("device", .jobj (deviceBlock d))]

/-- The `on_connect` callback: on `rc = 0`, sets the connected flag, publishes
the connectivity discovery when the device identity is set, publishes the
retained online status, and triggers the static discoveries; on a non-zero
code, logs an error and clears the connected flag. -/
def MqttClient.on_connect (self : MqttClient) (rc : Nat)
    (trs : List TransportResult) : OpResult :=
  if rc = 0 then
    let l0 : LogEntry := ("info", "Connected successfully to broker " ++
      self.broker_address ++ ":" ++ natStr self.port)
    let s1 := { self with is_connected := true }
    match s1.device_info_dict with
    | some d =>
        let (t1, trs1) := nextTr trs
        let p1 := s1.publish t1 (statusConfigTopic d) (dumps (statusConfigPayload d)) true 0
        let (t2, trs2) := nextTr trs1
        let p2 := p1.state.publish t2 "ha_idrac_controller/status" "online" true 0
        let p3 := p2.state.publish_static_sensor_discoveries trs2
        { state := p3.state
          msgs := p1.msgs ++ p2.msgs ++ p3.msgs
          logs := [l0] ++ p1.logs ++ p2.logs ++ p3.logs }
    | none =>
        let (t2, trs1) := nextTr trs
        let p2 := s1.publish t2 "ha_idrac_controller/status" "online" true 0
        let p3 := p2.state.publish_static_sensor_discoveries trs1
        { state := p3.state
          msgs := p2.msgs ++ p3.msgs
          logs := [l0] ++ p2.logs ++ p3.logs }
  else
    { state := { self with is_connected := false }
      msgs := []
      logs := [("error", "Connection failed with code " ++ natStr rc)] }

/-- The `on_disconnect` callback: logs and clears the connected flag. -/
def MqttClient.on_disconnect (self : MqttClient) (rc : Nat) : OpResult :=
  { state := { self with is_connected := false }
    msgs := []
    logs := [("info", "Disconnected from broker with result code " ++ natStr rc ++ ".")] }

/-- What the transport's `client.connect` call did. -/
inductive ConnectOutcome where
  | ok : ConnectOutcome
  | refused : ConnectOutcome
  | osError : String → ConnectOutcome
  | exc : String → ConnectOutcome
deriving DecidableEq

/-- Result of the `connect` method: the state, the `_log` calls, the last-will
message registered via `will_set`, and a fault channel for an exception
escaping the method (the source catches every exception class, so it is
`none` on every path). -/
structure ConnectResult where
  state : MqttClient
  logs : List LogEntry
  will : Option Msg
  fault : Option String
deriving DecidableEq

/-- `connect()`: a no-op when already connected; otherwise registers the
last-will (offline, retained, qos 1), attempts the transport connect inside
`try`, and catches `ConnectionRefusedError`, `OSError` and `Exception`,
logging each at error level. The connected flag is not touched on any path
(only the callbacks change it). -/
def MqttClient.connect (self : MqttClient) (o : ConnectOutcome) : ConnectResult :=
  if self.is_connected then
    { state := self, logs := [], will := none, fault := none }
  else
    let l0 : LogEntry := ("info", "Attempting to connect to broker " ++
      self.broker_address ++ ":" ++ natStr self.port ++ "...")
    let w : Msg := ⟨"ha_idrac_controller/status", "offline", true, 1⟩
    match o with
    | .ok => { state := self, logs := [l0], will := some w, fault := none }
    | .refused =>
        { state := self
          logs := [l0, ("error", "Connection refused by broker " ++
            self.broker_address ++ ":" ++ natStr self.port ++ ".")]
          will := some w
          fault := none }
    | .osError e =>
        { state := self
          logs := [l0, ("error", "OS error connecting to broker " ++
            self.broker_address ++ ":" ++ natStr self.port ++ " - " ++ e)]
          will := some w
          fault := none }
    | .exc e =>
        { state := self
          logs := [l0, ("error", "Could not connect to broker: " ++ e)]
          will := some w
          fault := none }

/-- `publish_sensor_state(slug, value_dict, suffix)`: with no device identity,
logs a warning; otherwise serializes the flat dictionary and publishes it,
not retained, discarding the inner publish result. The Python function
returns `None` on every path, so `ret` is always `none`. -/
def MqttClient.publish_sensor_state (self : MqttClient) (tr : TransportResult)
    (sensor_type_slug : String) (value_dict : List (String × JLeaf))
    (unique_id_suffix : Option String) : StateResult :=
  match self.device_info_dict with
  | none =>
      { state := self
        msgs := []
        logs := [("warning", "Device info not set. Cannot publish sensor state.")]
        ret := none }
  | some d =>
      let state_topic := "ha_idrac_controller/sensor/" ++ d.identifier ++ "/" ++
        sensor_type_slug ++ unique_id_suffix.getD "" ++ "/state"
      let p := self.publish tr state_topic (dumpsFlat value_dict) false 0
      { state := p.state, msgs := p.msgs, logs := p.logs, ret := none }

/-- `takeUntilQuote` recovers a quote-free prefix followed by a quote. -/
theorem takeUntilQuote_append (s rest : List Char) (h : '"' ∉ s) :
    takeUntilQuote (s ++ '"' :: rest) = some (s, rest) := by
  induction s with
  | nil => simp [takeUntilQuote]
  | cons c cs ih =>
      have hc : c ≠ '"' := by
        intro hh
        exact h (hh ▸ List.mem_cons_self c cs)
      have hcs : '"' ∉ cs := fun hm => h (List.mem_cons_of_mem _ hm)
      simp [takeUntilQuote, hc, ih hcs]

/-- `parseStr` inverts `quoteChars` on quote-free strings. -/
theorem parseStr_quoteChars (k : String) (ys : List Char) (h : '"' ∉ k.data) :
    parseStr (quoteChars k ++ ys) = some (k, ys) := by
  have hmk : String.mk k.data = k := rfl
  simp [quoteChars, parseStr, List.append_assoc, takeUntilQuote_append k.data ys h, hmk]

/-- A digit index below ten yields a digit character. -/
theorem digitChar_isDigit {n : Nat} (h : n < 10) : (Nat.digitChar n).isDigit = true := by
  interval_cases n <;> decide

/-- A digit index below ten is recovered from its character. -/
theorem digitChar_toNat {n : Nat} (h : n < 10) : (Nat.digitChar n).toNat - 48 = n := by
  interval_cases n <;> decide

/-- All characters produced by `natDigitsF` are digits. -/
theorem natDigitsF_isDigit {fuel : Nat} :
    ∀ {n : Nat}, n < fuel → ∀ c ∈ natDigitsF fuel n, c.isDigit = true := by
  induction fuel with
  | zero => omega
  | succ f ih =>
      intro n h c hc
      by_cases h10 : n < 10
      · simp [natDigitsF, h10] at hc
        subst hc
        exact digitChar_isDigit h10
      · have hdiv : n / 10 < n := Nat.div_lt_self (by omega) (by omega)
        simp [natDigitsF, h10] at hc
        rcases hc with hc | hc
        · exact ih (by omega) c hc
        · subst hc
          exact digitChar_isDigit (Nat.mod_lt _ (by omega))

/-- `natDigitsF` is nonempty when the fuel dominates. -/
theorem natDigitsF_ne_nil {n fuel : Nat} (h : n < fuel) : natDigitsF fuel n ≠ [] := by
  cases fuel with
  | zero => omega
  | succ f => by_cases h10 : n < 10 <;> simp [natDigitsF, h10]

/-- Appending one digit multiplies the accumulated value by ten. -/
theorem digitsToNat_append (xs : List Char) (c : Char) :
    digitsToNat (xs ++ [c]) = 10 * digitsToNat xs + (c.toNat - 48) := by
  simp [digitsToNat, List.foldl_append]

/-- The numeric value of the digits of `n` is `n`. -/
theorem digitsToNat_natDigitsF {fuel : Nat} :
    ∀ {n : Nat}, n < fuel → digitsToNat (natDigitsF fuel n) = n := by
  induction fuel with
  | zero => omega
  | succ f ih =>
      intro n h
      by_cases h10 : n < 10
      · have := digitChar_toNat h10
        simp [natDigitsF, h10, digitsToNat]
        omega
      · have hdiv : n / 10 < n := Nat.div_lt_self (by omega) (by omega)
        have hmod := digitChar_toNat (Nat.mod_lt n (show 0 < 10 by omega))
        simp [natDigitsF, h10, digitsToNat_append, ih (show n / 10 < f by omega), hmod]
        omega

/-- The input after a serialized fragment does not begin with a digit. -/
def notDigitStart (ys : List Char) : Prop :=
  ∀ c, ys.head? = some c → c.isDigit = false

/-- Cons form of `notDigitStart`. -/
theorem notDigitStart_cons {c : Char} (h : c.isDigit = false) (ys : List Char) :
    notDigitStart (c :: ys) := by
  intro d hd
  simp at hd
  subst hd
  exact h

/-- `takeDigits` splits a digit span from a non-digit continuation. -/
theorem takeDigits_append {xs ys : List Char} (hx : ∀ c ∈ xs, c.isDigit = true)
    (hy : notDigitStart ys) : takeDigits (xs ++ ys) = (xs, ys) := by
  induction xs with
  | nil =>
      cases ys with
      | nil => simp [takeDigits]
      | cons c cs =>
          have := hy c (by simp)
          simp [takeDigits, this]
  | cons c cs ih =>
      have hc := hx c (List.mem_cons_self _ _)
      simp [takeDigits, hc, ih (fun d hd => hx d (List.mem_cons_of_mem _ hd))]

/-- `parseNat` inverts `natChars`. -/
theorem parseNat_natChars (n : Nat) (ys : List Char) (hy : notDigitStart ys) :
    parseNat (natChars n ++ ys) = some (n, ys) := by
  have h : n < n + 1 := Nat.lt_succ_self n
  have hstep : takeDigits (natChars n ++ ys) = (natChars n, ys) :=
    takeDigits_append (natDigitsF_isDigit h) hy
  simp only [parseNat, hstep]
  rcases hrepr : natChars n with _ | ⟨d, ds⟩
  · exact absurd hrepr (natDigitsF_ne_nil h)
  · simp only [Option.some.injEq, Prod.mk.injEq, and_true]
    rw [← hrepr]
    simp [natChars, digitsToNat_natDigitsF h]

/-- A string in the fidelity domain contains no quote character. -/
theorem strOk_no_quote {s : String} (h : strOk s = true) : '"' ∉ s.data := by
  intro hm
  simp only [strOk, List.all_eq_true] at h
  have := h _ hm
  simp at this


/-- Serialized string lists are at least as long as the list. -/
theorem length_le_strsChars (xs : List String) : xs.length ≤ (strsChars xs).length := by
  induction xs with
  | nil => simp [strsChars]
  | cons x t ih =>
      cases t with
      | nil => simp [strsChars, quoteChars]
      | cons y t2 =>
          have hq : (quoteChars x).length = x.data.length + 2 := by simp [quoteChars]
          simp only [strsChars, List.length_append, List.length_cons, hq]
          simp only [List.length_cons] at ih
          omega

/-- `parseStrs` inverts `strsChars` on nonempty quote-free string lists. -/
theorem parseStrs_roundtrip (xs : List String) :
    ∀ (fuel : Nat) (ys : List Char), xs ≠ [] → (∀ s ∈ xs, strOk s = true) →
    xs.length ≤ fuel →
    parseStrs fuel (strsChars xs ++ ']' :: ys) = some (xs, ys) := by
  induction xs with
  | nil => intro fuel ys hne _ _; exact absurd rfl hne
  | cons x t ih =>
      intro fuel ys _ hok hfuel
      cases fuel with
      | zero => simp at hfuel
      | succ f =>
          have hx : '"' ∉ x.data := strOk_no_quote (hok x (List.mem_cons_self _ _))
          cases t with
          | nil => simp [strsChars, parseStrs, parseStr_quoteChars x (']' :: ys) hx]
          | cons x2 t2 =>
              have ht : (x2 :: t2).length ≤ f := by
                simp only [List.length_cons] at hfuel ⊢
                omega
              have h3 : strsChars (x :: x2 :: t2) =
                  quoteChars x ++ (',' :: ' ' :: strsChars (x2 :: t2)) := by
                simp only [strsChars]
              have hshape : strsChars (x :: x2 :: t2) ++ ']' :: ys =
                  quoteChars x ++ (',' :: ' ' :: (strsChars (x2 :: t2) ++ ']' :: ys)) := by
                rw [h3]
                simp [List.append_assoc]
              rw [hshape]
              simp [parseStrs, parseStr_quoteChars x _ hx,
                ih f ys (by simp) (fun s hs => hok s (List.mem_cons_of_mem _ hs)) ht]

/-- A digit character is none of the leading characters of the other leaf
forms. -/
theorem isDigit_ne {c : Char} (h : c.isDigit = true) :
    c ≠ 'n' ∧ c ≠ '-' ∧ c ≠ '"' ∧ c ≠ '[' := by
  refine ⟨?_, ?_, ?_, ?_⟩ <;> intro he <;> subst he <;> exact absurd h (by decide)

/-- `parseLeaf` recognizes a serialized nonnegative number. -/
theorem parseLeaf_digits (m : Nat) (ys : List Char) (hy : notDigitStart ys) :
    parseLeaf (natChars m ++ ys) = some (.jint (m : Int), ys) := by
  rcases hrepr : natChars m with _ | ⟨d, ds⟩
  · exact absurd hrepr (natDigitsF_ne_nil (Nat.lt_succ_self _))
  · have hd : d.isDigit = true := by
      refine natDigitsF_isDigit (Nat.lt_succ_self m) d ?_
      rw [show natDigitsF (m + 1) m = natChars m from rfl, hrepr]
      exact List.mem_cons_self _ _
    obtain ⟨h1, h2, h3, h4⟩ := isDigit_ne hd
    have hpn : parseNat (d :: (ds ++ ys)) = some (m, ys) := by
      rw [← List.cons_append, ← hrepr]
      exact parseNat_natChars m ys hy
    simp [parseLeaf, h1, h2, h3, h4, hd, hpn]

/-- `parseLeaf` recognizes a serialized string. -/
theorem parseLeaf_quote (s : String) (ys : List Char) (hs : '"' ∉ s.data) :
    parseLeaf (quoteChars s ++ ys) = some (.jstr s, ys) := by
  have harg : quoteChars s ++ ys = '"' :: (s.data ++ '"' :: ys) := by
    simp [quoteChars]
  have hps : parseStr ('"' :: (s.data ++ '"' :: ys)) = some (s, ys) := by
    rw [← harg]
    exact parseStr_quoteChars s ys hs
  rw [harg]
  simp [parseLeaf, hps]

/-- `parseLeaf` inverts `leafChars` on the fidelity domain when the
continuation does not begin with a digit. -/
theorem parseLeaf_roundtrip (v : JLeaf) (ys : List Char) (hv : leafOk v = true)
    (hy : notDigitStart ys) :
    parseLeaf (leafChars v ++ ys) = some (v, ys) := by
  cases v with
  | jnull => simp [leafChars, parseLeaf]
  | jint n =>
      rcases lt_or_le n 0 with hn | hn
      · have hneg : leafChars (JLeaf.jint n) = '-' :: natChars n.natAbs := by
          simp [leafChars, intChars, hn]
        have hpn : parseNat (natChars n.natAbs ++ ys) = some (n.natAbs, ys) :=
          parseNat_natChars n.natAbs ys hy
        have habs : ((n.natAbs : Int)) = -n := Int.ofNat_natAbs_of_nonpos (le_of_lt hn)
        rw [hneg]
        simp [parseLeaf, hpn, habs]
      · have hpos : leafChars (JLeaf.jint n) = natChars n.natAbs := by
          simp [leafChars, intChars, not_lt.mpr hn]
        rw [hpos, parseLeaf_digits n.natAbs ys hy, Int.natAbs_of_nonneg hn]
  | jstr s =>
      have hs : '"' ∉ s.data := strOk_no_quote (by simpa [leafOk] using hv)
      rw [show leafChars (JLeaf.jstr s) = quoteChars s from rfl]
      exact parseLeaf_quote s ys hs
  | jstrs xs =>
      cases xs with
      | nil => simp [leafChars, strsChars, parseLeaf]
      | cons x t =>
          have hok : ∀ s ∈ x :: t, strOk s = true := by
            simpa [leafOk, List.all_eq_true] using hv
          have harg : leafChars (JLeaf.jstrs (x :: t)) ++ ys =
              '[' :: (strsChars (x :: t) ++ ']' :: ys) := by
            simp [leafChars]
          have h1 := length_le_strsChars (x :: t)
          have hlen : (x :: t).length ≤ (strsChars (x :: t) ++ ']' :: ys).length := by
            rw [List.length_append]
            omega
          have hparse := parseStrs_roundtrip (x :: t)
            (strsChars (x :: t) ++ ']' :: ys).length ys (by simp) hok hlen
          have hhead : ∃ mm, strsChars (x :: t) ++ ']' :: ys = '"' :: mm := by
            cases t <;> simp [strsChars, quoteChars]
          obtain ⟨mm, hm⟩ := hhead
          rw [harg]
          simp only [parseLeaf]
          rw [hm]
          simp only [show ('"' : Char) = ']' ↔ False by simp]
          rw [← hm]
          simp only [List.length_append, List.length_cons] at hparse
          simp [hparse]

/-- Components of a flat-dictionary well-formedness check. -/
theorem flatOk_cons {k : String} {v : JLeaf} {t : List (String × JLeaf)}
    (h : flatOk ((k, v) :: t) = true) :
    strOk k = true ∧ leafOk v = true ∧ flatOk t = true := by
  simp only [flatOk, List.all_cons, Bool.and_eq_true] at h ⊢
  exact ⟨h.1.1, h.1.2, h.2⟩

/-- `parseEntriesFlat` inverts `entriesChars` on nonempty well-formed flat
dictionaries. -/
theorem parseEntriesFlat_roundtrip (kvs : List (String × JLeaf)) :
    ∀ (fuel : Nat) (ys : List Char), kvs ≠ [] → flatOk kvs = true →
    kvs.length ≤ fuel →
    parseEntriesFlat fuel (entriesChars leafChars kvs ++ cbrace :: ys) = some (kvs, ys) := by
  induction kvs with
  | nil => intro fuel ys hne _ _; exact absurd rfl hne
  | cons kv t ih =>
      intro fuel ys _ hok hfuel
      obtain ⟨k, v⟩ := kv
      obtain ⟨hk, hv, ht⟩ := flatOk_cons hok
      cases fuel with
      | zero => simp at hfuel
      | succ f =>
          cases t with
          | nil =>
              have hshape : entriesChars leafChars [(k, v)] ++ cbrace :: ys =
                  quoteChars k ++ (':' :: ' ' :: (leafChars v ++ cbrace :: ys)) := by
                simp [entriesChars, entryChars, List.append_assoc]
              rw [hshape]
              have hpk := parseStr_quoteChars k (':' :: ' ' :: (leafChars v ++ cbrace :: ys))
                (strOk_no_quote hk)
              have hpl := parseLeaf_roundtrip v (cbrace :: ys) hv
                (notDigitStart_cons (by decide) ys)
              simp [parseEntriesFlat, hpk, hpl]
          | cons kv2 t2 =>
              have hshape : entriesChars leafChars ((k, v) :: kv2 :: t2) ++ cbrace :: ys =
                  quoteChars k ++ (':' :: ' ' ::
                    (leafChars v ++ ',' :: ' ' ::
                      (entriesChars leafChars (kv2 :: t2) ++ cbrace :: ys))) := by
                simp only [entriesChars, entryChars]
                simp [List.append_assoc]
              rw [hshape]
              have hpk := parseStr_quoteChars k
                (':' :: ' ' :: (leafChars v ++ ',' :: ' ' ::
                  (entriesChars leafChars (kv2 :: t2) ++ cbrace :: ys)))
                (strOk_no_quote hk)
              have hpl := parseLeaf_roundtrip v
                (',' :: ' ' :: (entriesChars leafChars (kv2 :: t2) ++ cbrace :: ys)) hv
                (notDigitStart_cons (by decide) _)
              have hrec := ih f ys (by simp) ht
                (by simp only [List.length_cons] at hfuel ⊢; omega)
              have hcne : (',' : Char) ≠ cbrace := by decide
              simp [parseEntriesFlat, hpk, hpl, hcne, hrec]

/-- Serialized entry lists are at least as long as the entry list. -/
theorem length_le_entriesChars (f : α → List Char) (kvs : List (String × α)) :
    kvs.length ≤ (entriesChars f kvs).length := by
  induction kvs with
  | nil => simp [entriesChars]
  | cons kv t ih =>
      obtain ⟨k, v⟩ := kv
      cases t with
      | nil => simp [entriesChars, entryChars, quoteChars]
      | cons kv2 t2 =>
          have hq : (entryChars k (f v)).length = k.data.length + (f v).length + 4 := by
            simp [entryChars, quoteChars]
            omega
          simp only [entriesChars, List.length_append, List.length_cons, hq]
          simp only [List.length_cons] at ih
          omega

/-- A nonempty entry list serializes to a nonempty character list. -/
theorem entriesChars_cons_ne_nil (f : α → List Char) (k : String) (v : α)
    (t : List (String × α)) : entriesChars f ((k, v) :: t) ≠ [] := by
  cases t <;> simp [entriesChars, entryChars, quoteChars]

/-- Round-trip: `loads` recovers exactly the flat dictionary serialized by
`dumpsFlat`, on the fidelity domain. -/
theorem loads_dumpsFlat (kvs : List (String × JLeaf)) (hok : flatOk kvs = true) :
    loads (dumpsFlat kvs) = some kvs := by
  cases kvs with
  | nil => simp [loads, dumpsFlat, entriesChars]
  | cons kv t =>
      obtain ⟨k, v⟩ := kv
      have hne := entriesChars_cons_ne_nil leafChars k v t
      have hrest_ne : entriesChars leafChars ((k, v) :: t) ++ [cbrace] ≠ [cbrace] := by
        intro hcontra
        have hl := congrArg List.length hcontra
        simp only [List.length_append, List.length_cons, List.length_nil] at hl
        exact hne (List.length_eq_zero.mp (by omega))
      have hlen : ((k, v) :: t).length ≤
          (entriesChars leafChars ((k, v) :: t) ++ [cbrace]).length := by
        have := length_le_entriesChars leafChars ((k, v) :: t)
        simp only [List.length_append, List.length_cons, List.length_nil]
        simp only [List.length_cons] at this ⊢
        omega
      have hparse := parseEntriesFlat_roundtrip ((k, v) :: t)
        (entriesChars leafChars ((k, v) :: t) ++ [cbrace]).length [] (by simp) hok hlen
      simp only [List.length_append, List.length_cons, List.length_nil] at hparse
      simp only [loads, dumpsFlat, List.append_nil] at hparse ⊢
      simp [hrest_ne, hparse]

/-- A nonempty string has a false emptiness check. -/
theorem isEmpty_false_of_ne {v : String} (h : v ≠ "") : v.isEmpty = false := by
  cases hb : v.isEmpty with
  | false => rfl
  | true => exact absurd ((String.isEmpty_iff v).mp hb) h

/-- `publish` never changes the client's attributes. -/
theorem publish_state (s : MqttClient) (tr : TransportResult) (topic payload : String)
    (retain : Bool) (qos : Nat) : (s.publish tr topic payload retain qos).state = s := by
  cases tr <;> by_cases h : s.is_connected <;> simp [MqttClient.publish, h]

/-- When connected, `publish` hands exactly its message to the transport,
whatever the transport then reports. -/
theorem publish_msgs_connected {s : MqttClient} (h : s.is_connected = true)
    (tr : TransportResult) (topic payload : String) (retain : Bool) (qos : Nat) :
    (s.publish tr topic payload retain qos).msgs = [⟨topic, payload, retain, qos⟩] := by
  cases tr <;> simp [MqttClient.publish, h]

/-- When not connected, `publish` hands nothing to the transport, warns and
returns false. -/
theorem publish_not_connected {s : MqttClient} (h : s.is_connected = false)
    (tr : TransportResult) (topic payload : String) (retain : Bool) (qos : Nat) :
    s.publish tr topic payload retain qos =
      { state := s, msgs := [],
        logs := [("warning", "Not connected. Cannot publish to " ++ topic ++ ".")],
        ret := false } := by
  cases tr <;> simp [MqttClient.publish, h]

/-- `publish_sensor_discovery` never changes the client's attributes. -/
theorem psd_state (s : MqttClient) (tr : TransportResult) (slug name : String)
    (o1 o2 o3 o4 o5 o6 o7 : Option String) :
    (s.publish_sensor_discovery tr slug name o1 o2 o3 o4 o5 o6 o7).state = s := by
  cases hd : s.device_info_dict <;>
    simp [MqttClient.publish_sensor_discovery, hd, publish_state]

/-- With identity set and connected, `publish_sensor_discovery` hands exactly
the retained discovery configuration to the transport. -/
theorem psd_msgs {s : MqttClient} {d : DeviceInfo} (hd : s.device_info_dict = some d)
    (hc : s.is_connected = true) (tr : TransportResult) (slug name : String)
    (o1 o2 o3 o4 o5 o6 o7 : Option String) :
    (s.publish_sensor_discovery tr slug name o1 o2 o3 o4 o5 o6 o7).msgs =
      [⟨discoveryConfigTopic d slug o6,
        dumps (discoveryPayload d slug name o1 o2 o3 o4 o5 o6 o7), true, 0⟩] := by
  simp [MqttClient.publish_sensor_discovery, hd, publish_msgs_connected hc]

/-- The five static discovery messages, in source order: inlet temperature,
exhaust temperature, target fan speed, hottest CPU temperature, power
consumption. -/
def staticDiscoveryMsgs (d : DeviceInfo) : List Msg :=
  [⟨discoveryConfigTopic d "inlet_temp" none,
    dumps (discoveryPayload d "inlet_temp" "Inlet Temperature"
      (some "temperature") (some "°C") none (some temperatureTemplate) none none none),
    true, 0⟩,
   ⟨discoveryConfigTopic d "exhaust_temp" none,
    dumps (discoveryPayload d "exhaust_temp" "Exhaust Temperature"
      (some "temperature") (some "°C") none (some temperatureTemplate) none none none),
    true, 0⟩,
   ⟨discoveryConfigTopic d "target_fan_speed" none,
    dumps (discoveryPayload d "target_fan_speed" "Target Fan Speed"
      none (some "%") (some "mdi:fan-chevron-up") (some fanSpeedTemplate) none none none),
    true, 0⟩,
   ⟨discoveryConfigTopic d "hottest_cpu_temp" none,
    dumps (discoveryPayload d "hottest_cpu_temp" "Hottest CPU Temp"
      (some "temperature") (some "°C") none (some temperatureTemplate) none none none),
    true, 0⟩,
   ⟨discoveryConfigTopic d "power_consumption" none,
    dumps (discoveryPayload d "power_consumption" "Power Consumption"
      (some "power") (some "W") (some "mdi:flash") (some powerTemplate) none none
      (some "measurement")),
    true, 0⟩]

/-- With identity set and connected, the static discovery pass hands exactly
the five fixed messages to the transport. -/
theorem pssd_msgs {s : MqttClient} {d : DeviceInfo} (hd : s.device_info_dict = some d)
    (hc : s.is_connected = true) (trs : List TransportResult) :
    (s.publish_static_sensor_discoveries trs).msgs = staticDiscoveryMsgs d := by
  simp [MqttClient.publish_static_sensor_discoveries, hd, hc, psd_state,
    psd_msgs hd hc, staticDiscoveryMsgs]

/-- The static discovery pass never changes the client's attributes. -/
theorem pssd_state (s : MqttClient) (trs : List TransportResult) :
    (s.publish_static_sensor_discoveries trs).state = s := by
  simp only [MqttClient.publish_static_sensor_discoveries]
  split
  · rfl
  · simp [psd_state]

/-- Without device identity the static discovery pass publishes nothing and
warns. -/
theorem pssd_skip {s : MqttClient} (hd : s.device_info_dict = none)
    (trs : List TransportResult) :
    s.publish_static_sensor_discoveries trs =
      { state := s, msgs := [],
        logs := [("warning",
          "MQTT not connected or device_info not set, skipping static discoveries.")] } := by
  simp [MqttClient.publish_static_sensor_discoveries, hd]

/-- The connectivity discovery message published by `on_connect`. -/
def connectivityDiscoveryMsg (d : DeviceInfo) : Msg :=
  ⟨statusConfigTopic d, dumps (statusConfigPayload d), true, 0⟩

/-- The retained online status message. -/
def onlineStatusMsg : Msg := ⟨"ha_idrac_controller/status", "online", true, 0⟩

/-- On a successful connect callback with identity set, the transport receives
the connectivity discovery, then the online status, then the five static
discoveries. -/
theorem on_connect_msgs {s : MqttClient} {d : DeviceInfo} (hd : s.device_info_dict = some d)
    (trs : List TransportResult) :
    (s.on_connect 0 trs).msgs =
      connectivityDiscoveryMsg d :: onlineStatusMsg :: staticDiscoveryMsgs d := by
  simp [MqttClient.on_connect, hd, publish_msgs_connected, publish_state,
    pssd_msgs, connectivityDiscoveryMsg, onlineStatusMsg]

/-- A concrete device identity, as derived for address `192.168.1.5`. -/
def devA : DeviceInfo :=
  { identifier := "idrac_controller_192_168_1_5_device"
    name := "iDRAC Controller (192.168.1.5)"
    model := "PowerEdge R730"
    manufacturer := "Dell" }

/-- A client with identity set, not connected. -/
def clientDisconnectedA : MqttClient :=
  { MqttClient.init with device_info_dict := some devA }

/-- A client with identity set and the connection up. -/
def clientConnectedA : MqttClient :=
  { MqttClient.init with is_connected := true, device_info_dict := some devA }

/-- C1: as stated, the claim is false: `publish_sensor_state` on a
disconnected client with identity set does not return the boolean false; the
Python function returns `None` (modelled `none`). -/
theorem C1_counterexample :
    ¬ ((clientDisconnectedA.publish_sensor_state (.info 0 true) "inlet_temp"
        [("temperature", .jint 42)] none).ret = some false) := by decide

/-- C1 (amended): with device identity set and connection state not Connected,
`publish_sensor_state` raises no exception, hands nothing to the transport,
leaves the client unchanged and returns `None` (no boolean publish flag on any
path); the boolean `false` is produced by the low-level `publish`, whose
result `publish_sensor_state` discards. -/
theorem C1_amended (s : MqttClient) (d : DeviceInfo) (tr : TransportResult)
    (slug : String) (vd : List (String × JLeaf)) (suffix : Option String)
    (hd : s.device_info_dict = some d) (hc : s.is_connected = false) :
    (s.publish_sensor_state tr slug vd suffix).ret = none ∧
    (s.publish_sensor_state tr slug vd suffix).msgs = [] ∧
    (s.publish_sensor_state tr slug vd suffix).state = s ∧
    ∀ topic payload retain qos, (s.publish tr topic payload retain qos).ret = false := by
  refine ⟨?_, ?_, ?_, fun topic payload retain qos => ?_⟩ <;>
    simp [MqttClient.publish_sensor_state, hd, publish_not_connected hc]

/-- C1 witness: the amended statement at a concrete disconnected client. -/
theorem C1_amended_witness :
    (clientDisconnectedA.publish_sensor_state (.info 0 true) "inlet_temp"
      [("temperature", .jint 42)] none).ret = none :=
  (C1_amended clientDisconnectedA devA (.info 0 true) "inlet_temp"
    [("temperature", .jint 42)] none rfl rfl).1

/-- C2: as stated, the claim is false: on a successful connect callback with
identity set the first message handed to the transport is the connectivity
discovery configuration, not the retained online status. -/
theorem C2_counterexample :
    ¬ ((clientDisconnectedA.on_connect 0 []).msgs.map Msg.topic =
      "ha_idrac_controller/status" :: statusConfigTopic devA ::
        (staticDiscoveryMsgs devA).map Msg.topic) := by decide

/-- C2 (amended): on a successful connect callback (`rc = 0`) with device
identity set, exactly seven messages are published, in this order: the
connectivity-class discovery first, then the single retained online status,
then the five static entity discoveries (inlet temperature, exhaust
temperature, target fan speed, hottest CPU temperature, power consumption). -/
theorem C2_amended (s : MqttClient) (d : DeviceInfo) (trs : List TransportResult)
    (hd : s.device_info_dict = some d) :
    (s.on_connect 0 trs).msgs =
      connectivityDiscoveryMsg d :: onlineStatusMsg :: staticDiscoveryMsgs d :=
  on_connect_msgs hd trs

/-- C2 witness: the amended order at a concrete client. -/
theorem C2_amended_witness :
    (clientDisconnectedA.on_connect 0 []).msgs =
      connectivityDiscoveryMsg devA :: onlineStatusMsg :: staticDiscoveryMsgs devA :=
  C2_amended clientDisconnectedA devA [] rfl

/-- C3: as stated, the claim is false: no message of the successful connect
callback is published on `homeassistant/binary_sensor/<device-id>/status/config`
for the derived device id; the source prefixes `idrac_controller_` a second
time in the topic. -/
theorem C3_counterexample :
    ¬ (∃ m ∈ (clientDisconnectedA.on_connect 0 []).msgs,
        m.topic = "homeassistant/binary_sensor/" ++ devA.identifier ++ "/status/config") := by
  decide

/-- C3 (amended): for every device identity, the connectivity discovery
emitted on successful connect is the first message, published retained on
`homeassistant/binary_sensor/idrac_controller_<device-id>/status/config`
(the device id doubly prefixed), and its JSON payload is the object with
name, state_topic, unique_id, device_class `connectivity`,
payload_on/payload_off, and the device block. -/
theorem C3_amended (s : MqttClient) (d : DeviceInfo) (trs : List TransportResult)
    (hd : s.device_info_dict = some d) :
    (s.on_connect 0 trs).msgs.head? = some
      ⟨"homeassistant/binary_sensor/idrac_controller_" ++ d.identifier ++ "/status/config",
       dumps [("name", .leaf (.jstr "iDRAC Controller Connectivity")),
              ("state_topic", .leaf (.jstr "ha_idrac_controller/status")),
              ("unique_id", .leaf (.jstr ("idrac_controller_" ++ d.identifier ++ "_connectivity"))),
              ("device_class", .leaf (.jstr "connectivity")),
              ("payload_on", .leaf (.jstr "online")),
              ("payload_off", .leaf (.jstr "offline")),
              ("device", .jobj (deviceBlock d))],
       true, 0⟩ := by
  rw [on_connect_msgs hd trs]
  rfl

/-- C3 witness: the amended topic and payload at a concrete client. -/
theorem C3_amended_witness :
    (clientDisconnectedA.on_connect 0 []).msgs.head? = some
      ⟨"homeassistant/binary_sensor/idrac_controller_" ++ devA.identifier ++ "/status/config",
       dumps [("name", .leaf (.jstr "iDRAC Controller Connectivity")),
              ("state_topic", .leaf (.jstr "ha_idrac_controller/status")),
              ("unique_id", .leaf (.jstr ("idrac_controller_" ++ devA.identifier ++ "_connectivity"))),
              ("device_class", .leaf (.jstr "connectivity")),
              ("payload_on", .leaf (.jstr "online")),
              ("payload_off", .leaf (.jstr "offline")),
              ("device", .jobj (deviceBlock devA))],
       true, 0⟩ :=
  C3_amended clientDisconnectedA devA [] rfl

/-- What the spec's words describe for address sanitization: every
non-alphanumeric character replaced by an underscore.  Defined for comparison
with the source's derivation, which replaces only dots. -/
def specSanitizedAddress (address : String) : String :=
  String.mk (address.data.map (fun c => if c.isAlphanum then c else '_'))

/-- C4: as stated, the claim is false in general: for the address
`my-host` the source keeps the hyphen, yielding
`idrac_controller_my-host_device`, while replacing non-alphanumeric
separators with underscores would yield `idrac_controller_my_host_device`. -/
theorem C4_counterexample :
    ((MqttClient.init.set_device_info (some "Dell") (some "PowerEdge")
        (some "my-host")).1.device_info_dict.map DeviceInfo.identifier =
      some "idrac_controller_my-host_device") ∧
    "idrac_controller_my-host_device" ≠
      "idrac_controller_" ++ specSanitizedAddress "my-host" ++ "_device" := by
  decide

/-- C4 (amended): `set_device_info` derives the identifier by replacing only
the dot characters of the address with underscores (all other characters,
non-alphanumeric ones included, are kept verbatim), defaulting to
`default_ip` when the address is absent; in particular the identifier for
`192.168.1.5` is `idrac_controller_192_168_1_5_device` and the identifier for
an absent address is `idrac_controller_default_ip_device`. -/
theorem C4_amended :
    (∀ (s : MqttClient) (manufacturer model : Option String) (ip : String),
      ip ≠ "" →
      (s.set_device_info manufacturer model (some ip)).1.device_info_dict.map
          DeviceInfo.identifier =
        some ("idrac_controller_" ++
          String.mk (ip.data.map (fun c => if c = '.' then '_' else c)) ++ "_device")) ∧
    (∀ (s : MqttClient) (manufacturer model : Option String),
      (s.set_device_info manufacturer model none).1.device_info_dict.map
          DeviceInfo.identifier =
        some "idrac_controller_default_ip_device") ∧
    ((MqttClient.init.set_device_info (some "Dell") (some "PowerEdge R730")
        (some "192.168.1.5")).1.device_info_dict.map DeviceInfo.identifier =
      some "idrac_controller_192_168_1_5_device") := by
  refine ⟨?_, ?_, by decide⟩
  · intro s manufacturer model ip hip
    simp [MqttClient.set_device_info, pyTruthy, isEmpty_false_of_ne hip]
  · intro s manufacturer model
    simp [MqttClient.set_device_info, pyTruthy]

/-- C4 witness: the amended dot-replacement rule at a concrete address. -/
theorem C4_amended_witness :
    (MqttClient.init.set_device_info (some "Dell") (some "PowerEdge")
        (some "10.0.0.2")).1.device_info_dict.map DeviceInfo.identifier =
      some "idrac_controller_10_0_0_2_device" := by
  rw [C4_amended.1 MqttClient.init (some "Dell") (some "PowerEdge") "10.0.0.2"
    (by decide)]
  decide

/-- C5: for every entity descriptor, calling `publish_sensor_discovery` before
`set_device_info` (device identity absent) logs a warning, hands nothing to
the transport, leaves the client unchanged and raises no exception. -/
theorem C5_no_identity_no_publish (s : MqttClient) (tr : TransportResult)
    (slug name : String) (o1 o2 o3 o4 o5 o6 o7 : Option String)
    (hd : s.device_info_dict = none) :
    s.publish_sensor_discovery tr slug name o1 o2 o3 o4 o5 o6 o7 =
      { state := s
        msgs := []
        logs := [("warning",
          "Device info not set. Cannot publish discovery for " ++ name ++ ".")] } := by
  simp [MqttClient.publish_sensor_discovery, hd]

/-- C5 witness: the fresh client (no identity yet) at a concrete descriptor. -/
theorem C5_no_identity_no_publish_witness :
    MqttClient.init.publish_sensor_discovery (.info 0 true) "inlet_temp"
        "Inlet Temperature" (some "temperature") (some "°C") none
        (some temperatureTemplate) none none none =
      { state := MqttClient.init
        msgs := []
        logs := [("warning",
          "Device info not set. Cannot publish discovery for Inlet Temperature.")] } := by
  rw [C5_no_identity_no_publish MqttClient.init (.info 0 true) "inlet_temp"
    "Inlet Temperature" (some "temperature") (some "°C") none
    (some temperatureTemplate) none none none rfl]
  decide

/-- A descriptor option counts as supplied with a usable value: if present, it
is not the empty string (the source tests options by Python truthiness). -/
def suppliedOk (o : Option String) : Prop := ∀ v, o = some v → v ≠ ""

/-- The payload entry the spec describes for a supplied option: present
exactly when the option is supplied. -/
def suppliedEntry (key : String) (o : Option String) : List (String × JVal) :=
  o.elim [] (fun v => [(key, .leaf (.jstr v))])

/-- On supplied-or-absent options the source's truthiness test agrees with
the spec's supplied test. -/
theorem optEntry_eq_suppliedEntry (key : String) (o : Option String)
    (h : suppliedOk o) : optEntry key o = suppliedEntry key o := by
  cases o with
  | none => rfl
  | some v =>
      have hv : v.isEmpty = false := isEmpty_false_of_ne (h v rfl)
      simp [optEntry, suppliedEntry, pyTruthy, hv]

/-- On a supplied-or-absent suffix the source's unique-id suffix handling
agrees with the spec's `[_<suffix>]`. -/
theorem uid_suffix_eq (o : Option String) (h : suppliedOk o) :
    (if pyTruthy o then "_" ++ o.getD "" else "") = o.elim "" (fun v => "_" ++ v) := by
  cases o with
  | none => rfl
  | some v =>
      have hv : v.isEmpty = false := isEmpty_false_of_ne (h v rfl)
      simp [pyTruthy, hv]

/-- C6: for every entity descriptor with device identity set (and the
connection up so a publish reaches the transport), `publish_sensor_discovery`
publishes exactly one retained message on
`homeassistant/sensor/<device-id>/<slug><suffix>/config` whose JSON payload is
the object with the display name, the state topic
`ha_idrac_controller/sensor/<device-id>/<slug><suffix>/state`, the unique id
`<device-id>_<slug>[_<suffix>]`, the device block, the availability
topic/payload pair, and exactly those of device class / unit / icon / value
template / category / state class that were supplied. -/
theorem C6_discovery_message (s : MqttClient) (d : DeviceInfo) (tr : TransportResult)
    (slug name : String) (dc um ic vt cat suf sc : Option String)
    (hd : s.device_info_dict = some d) (hc : s.is_connected = true)
    (h1 : suppliedOk dc) (h2 : suppliedOk um) (h3 : suppliedOk ic)
    (h4 : suppliedOk vt) (h5 : suppliedOk cat) (h6 : suppliedOk suf)
    (h7 : suppliedOk sc) :
    (s.publish_sensor_discovery tr slug name dc um ic vt cat suf sc).msgs =
      [⟨"homeassistant/sensor/" ++ d.identifier ++ "/" ++ slug ++ suf.getD "" ++ "/config",
        dumps
          ([("name", .leaf (.jstr name)),
            ("state_topic", .leaf (.jstr ("ha_idrac_controller/sensor/" ++ d.identifier ++
              "/" ++ slug ++ suf.getD "" ++ "/state"))),
            ("unique_id", .leaf (.jstr (d.identifier ++ "_" ++ slug ++
              suf.elim "" (fun v => "_" ++ v)))),
            ("device", .jobj (deviceBlock d)),
            ("availability_topic", .leaf (.jstr "ha_idrac_controller/status")),
            ("payload_available", .leaf (.jstr "online")),
            ("payload_not_available", .leaf (.jstr "offline"))]
           ++ suppliedEntry "device_class" dc
           ++ suppliedEntry "unit_of_measurement" um
           ++ suppliedEntry "icon" ic
           ++ suppliedEntry "value_template" vt
           ++ suppliedEntry "entity_category" cat
           ++ suppliedEntry "state_class" sc),
        true, 0⟩] := by
  rw [psd_msgs hd hc]
  simp only [discoveryConfigTopic, discoveryPayload, discoveryStateTopic,
    discoveryUniqueId, uid_suffix_eq suf h6,
    optEntry_eq_suppliedEntry _ dc h1, optEntry_eq_suppliedEntry _ um h2,
    optEntry_eq_suppliedEntry _ ic h3, optEntry_eq_suppliedEntry _ vt h4,
    optEntry_eq_suppliedEntry _ cat h5, optEntry_eq_suppliedEntry _ sc h7]

/-- C6 witness: a concrete descriptor with some options supplied and a
suffix. -/
theorem C6_discovery_message_witness :
    (clientConnectedA.publish_sensor_discovery (.info 0 true) "fan_rpm" "Fan 1 RPM"
        none (some "RPM") (some "mdi:fan") none none (some "fan1") none).msgs =
      [⟨"homeassistant/sensor/" ++ devA.identifier ++ "/" ++ "fan_rpm" ++
          (some "fan1").getD "" ++ "/config",
        dumps
          ([("name", .leaf (.jstr "Fan 1 RPM")),
            ("state_topic", .leaf (.jstr ("ha_idrac_controller/sensor/" ++ devA.identifier ++
              "/" ++ "fan_rpm" ++ (some "fan1").getD "" ++ "/state"))),
            ("unique_id", .leaf (.jstr (devA.identifier ++ "_" ++ "fan_rpm" ++
              (some "fan1").elim "" (fun v => "_" ++ v)))),
            ("device", .jobj (deviceBlock devA)),
            ("availability_topic", .leaf (.jstr "ha_idrac_controller/status")),
            ("payload_available", .leaf (.jstr "online")),
            ("payload_not_available", .leaf (.jstr "offline"))]
           ++ suppliedEntry "device_class" none
           ++ suppliedEntry "unit_of_measurement" (some "RPM")
           ++ suppliedEntry "icon" (some "mdi:fan")
           ++ suppliedEntry "value_template" none
           ++ suppliedEntry "entity_category" none
           ++ suppliedEntry "state_class" none),
        true, 0⟩] := by
  exact C6_discovery_message clientConnectedA devA (.info 0 true) "fan_rpm" "Fan 1 RPM"
    none (some "RPM") (some "mdi:fan") none none (some "fan1") none rfl rfl
    (by intro v hv; cases hv) (by intro v hv; injection hv with h; subst h; decide)
    (by intro v hv; injection hv with h; subst h; decide)
    (by intro v hv; cases hv) (by intro v hv; cases hv)
    (by intro v hv; injection hv with h; subst h; decide)
    (by intro v hv; cases hv)

/-- C7: for every flat key-value structure (within the serializer's fidelity
domain) passed to `publish_sensor_state` with identity set and the connection
up, deserializing the text payload placed on the wire yields exactly the
structure passed in. -/
theorem C7_state_roundtrip (s : MqttClient) (d : DeviceInfo) (tr : TransportResult)
    (slug : String) (vd : List (String × JLeaf)) (suf : Option String)
    (hd : s.device_info_dict = some d) (hc : s.is_connected = true)
    (hok : flatOk vd = true) :
    ((s.publish_sensor_state tr slug vd suf).msgs.map (fun m => loads m.payload)) =
      [some vd] := by
  simp [MqttClient.publish_sensor_state, hd, publish_msgs_connected hc,
    loads_dumpsFlat vd hok]

/-- C7 witness: a concrete temperature/speed/power payload round-trips. -/
theorem C7_state_roundtrip_witness :
    ((clientConnectedA.publish_sensor_state (.info 0 true) "inlet_temp"
        [("temperature", .jint 42), ("speed", .jnull), ("label", .jstr "inlet")]
        none).msgs.map (fun m => loads m.payload)) =
      [some [("temperature", .jint 42), ("speed", .jnull), ("label", .jstr "inlet")]] :=
  C7_state_roundtrip clientConnectedA devA (.info 0 true) "inlet_temp"
    [("temperature", .jint 42), ("speed", .jnull), ("label", .jstr "inlet")]
    none rfl rfl (by decide)

/-- C8: every failure of the transport connect call inside `connect()` —
refusal, OS-level error, or generic exception — is caught and logged at error
level, no fault escapes to the caller, and the client (in particular its
connection state, still Disconnected) is unchanged. -/
theorem C8_connect_failures (s : MqttClient) (o : ConnectOutcome)
    (hc : s.is_connected = false) (ho : o ≠ .ok) :
    (s.connect o).fault = none ∧ (s.connect o).state = s ∧
    (s.connect o).state.is_connected = false ∧
    ∃ m, ("error", m) ∈ (s.connect o).logs := by
  cases o with
  | ok => exact absurd rfl ho
  | refused =>
      refine ⟨?_, ?_, ?_, ⟨"Connection refused by broker " ++ s.broker_address ++ ":" ++
        natStr s.port ++ ".", ?_⟩⟩ <;> simp [MqttClient.connect, hc]
  | osError e =>
      refine ⟨?_, ?_, ?_, ⟨"OS error connecting to broker " ++ s.broker_address ++ ":" ++
        natStr s.port ++ " - " ++ e, ?_⟩⟩ <;> simp [MqttClient.connect, hc]
  | exc e =>
      refine ⟨?_, ?_, ?_, ⟨"Could not connect to broker: " ++ e, ?_⟩⟩ <;>
        simp [MqttClient.connect, hc]

/-- C8 witness: a refused connection at a concrete disconnected client. -/
theorem C8_connect_failures_witness :
    (MqttClient.init.connect .refused).fault = none ∧
    (MqttClient.init.connect .refused).state.is_connected = false :=
  ⟨(C8_connect_failures MqttClient.init .refused rfl (by decide)).1,
   (C8_connect_failures MqttClient.init .refused rfl (by decide)).2.2.1⟩

/-- C9: no publish operation (`publish`, `publish_sensor_discovery`,
`publish_sensor_state`) changes the client's attributes — in particular the
connection state field is unchanged by every such call; only the
connect/disconnect callbacks modify it. -/
theorem C9_publish_preserves_state (s : MqttClient) (tr : TransportResult)
    (topic payload : String) (retain : Bool) (qos : Nat) (slug name : String)
    (o1 o2 o3 o4 o5 o6 o7 : Option String) (vd : List (String × JLeaf)) :
    (s.publish tr topic payload retain qos).state = s ∧
    (s.publish_sensor_discovery tr slug name o1 o2 o3 o4 o5 o6 o7).state = s ∧
    (s.publish_sensor_state tr slug vd o6).state = s := by
  refine ⟨publish_state s tr topic payload retain qos,
    psd_state s tr slug name o1 o2 o3 o4 o5 o6 o7, ?_⟩
  cases hd : s.device_info_dict <;>
    simp [MqttClient.publish_sensor_state, hd, publish_state]

/-- C10: on a successful connect callback with device identity not set, the
retained online status is still the only message published, the connectivity
discovery and the five static discoveries are skipped (the latter with a
warning), and the callback still sets the connection flag. -/
theorem C10_connect_callback_without_identity (s : MqttClient)
    (trs : List TransportResult) (hd : s.device_info_dict = none) :
    (s.on_connect 0 trs).state.is_connected = true ∧
    (s.on_connect 0 trs).msgs = [onlineStatusMsg] ∧
    ("warning", "MQTT not connected or device_info not set, skipping static discoveries.")
      ∈ (s.on_connect 0 trs).logs := by
  refine ⟨?_, ?_, ?_⟩ <;>
    simp [MqttClient.on_connect, hd, publish_state, publish_msgs_connected,
      pssd_skip, onlineStatusMsg]

/-- C10 witness: the fresh client (no identity) at a successful callback. -/
theorem C10_connect_callback_without_identity_witness :
    (MqttClient.init.on_connect 0 []).state.is_connected = true ∧
    (MqttClient.init.on_connect 0 []).msgs = [onlineStatusMsg] :=
  ⟨(C10_connect_callback_without_identity MqttClient.init [] rfl).1,
   (C10_connect_callback_without_identity MqttClient.init [] rfl).2.1⟩
